import Mathlib

/-!
Verification of the caching subsystem of the LastAPI repository
(`app/main.py`): cache-key derivation (`make_cache_key`), the two-tier
caching middleware (`redis_cache_middleware`), and the invalidation
subscriber (`redis_subscriber`).

The embedding models Python values flowing through the caching code as a
`Json`-like inductive (`Json.null` models Python `None`), models the JSON
codec (`json.dumps` / `json.loads`) executably over that type, models the
SHA-256 digest used by `hashlib.sha256(...).hexdigest()` in full, and
models the middleware and subscriber as explicit state-passing functions
whose external effects (the Redis `get`/`set` outcomes, the downstream
handler's response, messages arriving on the pub/sub channel) are supplied
through an environment value.  Exceptions raised by the Python code are
modelled with `Except PyErr`.

Byte strings are modelled as Lean `String`s (the code decodes everything
as UTF-8 text); floating-point JSON numbers are outside the fragment the
claims touch and `Json.loads` rejects them.
-/

/-- Python exception classes that the caching code can raise. -/
inductive PyErr where
  | typeError
  | keyError
  | attributeError
  | connectionError
  | jsonDecodeError
  deriving DecidableEq, Repr

/-- Model of the Python values handled by the caching subsystem: JSON
values plus Python `None` (modelled by `Json.null`). -/
inductive Json where
  | str (s : String)
  | num (n : Int)
  | bool (b : Bool)
  | null
  | arr (xs : List Json)
  | obj (kvs : List (String × Json))

mutual

/-- Structural equality on `Json`, modelling Python `==` on the
corresponding values. -/
def Json.beq : Json → Json → Bool
  | .str a, .str b => a == b
  | .num a, .num b => a == b
  | .bool a, .bool b => a == b
  | .null, .null => true
  | .arr xs, .arr ys => beqList xs ys
  | .obj xs, .obj ys => beqPairs xs ys
  | _, _ => false

/-- Pointwise equality of `Json` lists. -/
def beqList : List Json → List Json → Bool
  | [], [] => true
  | x :: xs, y :: ys => Json.beq x y && beqList xs ys
  | _, _ => false

/-- Pointwise equality of `Json` key/value pair lists. -/
def beqPairs : List (String × Json) → List (String × Json) → Bool
  | [], [] => true
  | (k, v) :: xs, (k2, v2) :: ys => k == k2 && Json.beq v v2 && beqPairs xs ys
  | _, _ => false

end

mutual

theorem Json.beq_refl : (j : Json) → Json.beq j j = true
  | .str _ => by simp [Json.beq]
  | .num _ => by simp [Json.beq]
  | .bool _ => by simp [Json.beq]
  | .null => by simp [Json.beq]
  | .arr xs => by simp [Json.beq, beqList_refl xs]
  | .obj xs => by simp [Json.beq, beqPairs_refl xs]

theorem beqList_refl : (l : List Json) → beqList l l = true
  | [] => by simp [beqList]
  | x :: xs => by simp [beqList, Json.beq_refl x, beqList_refl xs]

theorem beqPairs_refl : (l : List (String × Json)) → beqPairs l l = true
  | [] => by simp [beqPairs]
  | (k, v) :: xs => by simp [beqPairs, Json.beq_refl v, beqPairs_refl xs]

end

/-- Python truthiness of a value (`if cached:`, `and key`): `None`, empty
strings, zero, empty containers and `False` are falsy. -/
def Json.truthy : Json → Bool
  | .str s => !(s == "")
  | .num n => !(n == 0)
  | .bool b => b
  | .null => false
  | .arr xs => !xs.isEmpty
  | .obj kvs => !kvs.isEmpty

/-- Last-occurrence lookup in a key/value list: Python dicts built from
JSON objects keep the last value bound to a repeated key. -/
def lookupLast (kvs : List (String × Json)) (k : String) : Option Json :=
  match kvs with
  | [] => none
  | (k2, v) :: rest =>
    match lookupLast rest k with
    | some r => some r
    | none => if k2 == k then some v else none

/-- Python subscription `j[k]` with a string key: a `KeyError` on a dict
missing the key, a `TypeError` on any non-dict value (in particular on
`None`, as in `None["data"]`). -/
def pyIndex (j : Json) (k : String) : Except PyErr Json :=
  match j with
  | .obj kvs =>
    match lookupLast kvs k with
    | some v => .ok v
    | none => .error .keyError
  | _ => .error .typeError

/-- Python `j.get(k)`: `None` when the key is absent from the dict, an
`AttributeError` when `j` is not a dict. -/
def pyGet (j : Json) (k : String) : Except PyErr Json :=
  match j with
  | .obj kvs => .ok ((lookupLast kvs k).getD .null)
  | _ => .error .attributeError

/-- Lowercase hexadecimal digit, as produced by Python's `json` module and
`hashlib` hexdigests. -/
def hexDigitChar (n : Nat) : Char :=
  if n < 10 then Char.ofNat (48 + n) else Char.ofNat (87 + n)

/-- Four lowercase hex digits of a 16-bit value, for `\uXXXX` escapes. -/
def u4hex (n : Nat) : List Char :=
  [hexDigitChar (n / 4096 % 16), hexDigitChar (n / 256 % 16),
   hexDigitChar (n / 16 % 16), hexDigitChar (n % 16)]

/-- Escape one character the way `json.dumps` (with its default
`ensure_ascii=True`) does: short escapes for the common control
characters, `\uXXXX` for other control and non-ASCII characters,
surrogate pairs above the basic multilingual plane. -/
def escChar (c : Char) : List Char :=
  let n := c.toNat
  if c = '"' then ['\\', '"']
  else if c = '\\' then ['\\', '\\']
  else if n = 10 then ['\\', 'n']
  else if n = 13 then ['\\', 'r']
  else if n = 9 then ['\\', 't']
  else if n = 8 then ['\\', 'b']
  else if n = 12 then ['\\', 'f']
  else if n < 32 then '\\' :: 'u' :: u4hex n
  else if n < 128 then [c]
  else if n < 65536 then '\\' :: 'u' :: u4hex n
  else
    let m := n - 65536
    ('\\' :: 'u' :: u4hex (55296 + m / 1024)) ++ ('\\' :: 'u' :: u4hex (56320 + m % 1024))

/-- JSON string-body escaping as performed by `json.dumps`. -/
def jsonEscape (s : String) : String :=
  String.mk (s.data.map escChar).flatten

/-- A JSON string literal as serialized by `json.dumps`. -/
def dumpsStr (s : String) : String :=
  "\"" ++ jsonEscape s ++ "\""

mutual

/-- Model of `json.dumps` with its default separators `", "` and `": "`:
objects serialize their pairs in list order, as Python dicts serialize in
insertion order. -/
def Json.dumps : Json → String
  | .str s => dumpsStr s
  | .num n => toString n
  | .bool b => if b then "true" else "false"
  | .null => "null"
  | .arr xs => "[" ++ dumpsList xs ++ "]"
  | .obj kvs => "\x7b" ++ dumpsPairs kvs ++ "\x7d"

/-- Comma-separated serialization of array elements. -/
def dumpsList : List Json → String
  | [] => ""
  | [x] => Json.dumps x
  | x :: xs => Json.dumps x ++ ", " ++ dumpsList xs

/-- Comma-separated serialization of object members. -/
def dumpsPairs : List (String × Json) → String
  | [] => ""
  | [(k, v)] => dumpsStr k ++ ": " ++ Json.dumps v
  | (k, v) :: xs => dumpsStr k ++ ": " ++ Json.dumps v ++ ", " ++ dumpsPairs xs

end

/-- JSON structural whitespace. -/
def isJsonWs (c : Char) : Bool :=
  c = ' ' || c = '\t' || c.toNat = 10 || c.toNat = 13

/-- Drop leading JSON whitespace. -/
def skipWs : List Char → List Char
  | [] => []
  | c :: rest => if isJsonWs c then skipWs rest else c :: rest

/-- Numeric value of a list of decimal digit characters. -/
def digitsToNat (ds : List Char) : Nat :=
  ds.foldl (fun acc c => 10 * acc + (c.toNat - 48)) 0

/-- Numeric value of a list of hex digit characters. -/
def hexToNat (ds : List Char) : Nat :=
  ds.foldl (fun acc c =>
    16 * acc +
      (if c.toNat ≥ 97 then c.toNat - 87
       else if c.toNat ≥ 65 then c.toNat - 55
       else c.toNat - 48)) 0

/-- Hex digit test. -/
def isHexDigit (c : Char) : Bool :=
  c.isDigit || (c.toNat ≥ 97 && c.toNat ≤ 102) || (c.toNat ≥ 65 && c.toNat ≤ 70)

/-- Prepend a character to the string of a partial parse result. -/
def consStr (c : Char) (r : Option (String × List Char)) : Option (String × List Char) :=
  r.map fun p => (String.mk (c :: p.1.data), p.2)

/-- Decode a single-character escape sequence (`\u` handled separately). -/
def escShort (e : Char) : Option Char :=
  if e = '"' then some '"'
  else if e = '\\' then some '\\'
  else if e = '/' then some '/'
  else if e = 'n' then some (Char.ofNat 10)
  else if e = 'r' then some (Char.ofNat 13)
  else if e = 't' then some (Char.ofNat 9)
  else if e = 'b' then some (Char.ofNat 8)
  else if e = 'f' then some (Char.ofNat 12)
  else none

/-- Parse the body of a JSON string literal (the opening quote already
consumed), handling the escape sequences `json.loads` accepts.  Surrogate
code points fall outside Lean's `Char`; they map to the replacement
`Char.ofNat` yields, an edge no cached payload in this development uses. -/
def parseStringBody : List Char → Option (String × List Char)
  | [] => none
  | '"' :: rest => some ("", rest)
  | '\\' :: 'u' :: h1 :: h2 :: h3 :: h4 :: rest =>
    if isHexDigit h1 && isHexDigit h2 && isHexDigit h3 && isHexDigit h4 then
      consStr (Char.ofNat (hexToNat [h1, h2, h3, h4])) (parseStringBody rest)
    else none
  | '\\' :: e :: rest =>
    match escShort e with
    | some d => consStr d (parseStringBody rest)
    | none => none
  | c :: rest =>
    if c.toNat < 32 then none else consStr c (parseStringBody rest)

/-- Parse a JSON integer (an optional minus sign and digits).  A following
`.`, `e` or `E` would denote a float, which this model leaves outside its
fragment and rejects. -/
def parseIntNum (cs : List Char) : Option (Int × List Char) :=
  let (neg, cs2) : Bool × List Char :=
    match cs with
    | '-' :: rest => (true, rest)
    | _ => (false, cs)
  let ds := cs2.takeWhile Char.isDigit
  let rest := cs2.dropWhile Char.isDigit
  if ds.isEmpty then none
  else
    match rest with
    | c :: _ => if c = '.' || c = 'e' || c = 'E' then none
                else some (if neg then -(digitsToNat ds : Int) else (digitsToNat ds : Int), rest)
    | [] => some (if neg then -(digitsToNat ds : Int) else (digitsToNat ds : Int), [])

mutual

/-- Fuel-based parser for one JSON value, modelling `json.loads`. -/
def parseVal : Nat → List Char → Option (Json × List Char)
  | 0, _ => none
  | fuel + 1, cs =>
    match skipWs cs with
    | 'n' :: 'u' :: 'l' :: 'l' :: rest => some (.null, rest)
    | 't' :: 'r' :: 'u' :: 'e' :: rest => some (.bool true, rest)
    | 'f' :: 'a' :: 'l' :: 's' :: 'e' :: rest => some (.bool false, rest)
    | '"' :: rest =>
      match parseStringBody rest with
      | some (s, rest2) => some (.str s, rest2)
      | none => none
    | '[' :: rest =>
      (match skipWs rest with
       | ']' :: rest2 => some (.arr [], rest2)
       | _ =>
         match parseArrItems fuel rest with
         | some (xs, rest2) => some (.arr xs, rest2)
         | none => none)
    | '\x7b' :: rest =>
      (match skipWs rest with
       | '\x7d' :: rest2 => some (.obj [], rest2)
       | _ =>
         match parseObjItems fuel rest with
         | some (kvs, rest2) => some (.obj kvs, rest2)
         | none => none)
    | other =>
      match parseIntNum other with
      | some (n, rest) => some (.num n, rest)
      | none => none

/-- Parse the comma-separated elements of a non-empty JSON array, up to and
including the closing bracket. -/
def parseArrItems : Nat → List Char → Option (List Json × List Char)
  | 0, _ => none
  | fuel + 1, cs =>
    match parseVal fuel cs with
    | some (v, rest) =>
      (match skipWs rest with
       | ',' :: rest2 =>
         (match parseArrItems fuel rest2 with
          | some (xs, rest3) => some (v :: xs, rest3)
          | none => none)
       | ']' :: rest2 => some ([v], rest2)
       | _ => none)
    | none => none

/-- Parse the comma-separated members of a non-empty JSON object, up to and
including the closing brace. -/
def parseObjItems : Nat → List Char → Option (List (String × Json) × List Char)
  | 0, _ => none
  | fuel + 1, cs =>
    match skipWs cs with
    | '"' :: rest =>
      (match parseStringBody rest with
       | some (k, rest2) =>
         (match skipWs rest2 with
          | ':' :: rest3 =>
            (match parseVal fuel rest3 with
             | some (v, rest4) =>
               (match skipWs rest4 with
                | ',' :: rest5 =>
                  (match parseObjItems fuel rest5 with
                   | some (kvs, rest6) => some ((k, v) :: kvs, rest6)
                   | none => none)
                | '\x7d' :: rest5 => some ([(k, v)], rest5)
                | _ => none)
             | none => none)
          | _ => none)
       | none => none)
    | _ => none

end

/-- Model of `json.loads`: parse one value, require only whitespace after
it. -/
def Json.loads (s : String) : Option Json :=
  match parseVal (2 * s.data.length + 4) s.data with
  | some (j, rest) => if (skipWs rest).isEmpty then some j else none
  | none => none

/-- UTF-8 encoding of one character, as `str.encode()` produces. -/
def utf8Char (c : Char) : List Nat :=
  let n := c.toNat
  if n < 128 then [n]
  else if n < 2048 then [192 + n / 64, 128 + n % 64]
  else if n < 65536 then [224 + n / 4096, 128 + n / 64 % 64, 128 + n % 64]
  else [240 + n / 262144, 128 + n / 4096 % 64, 128 + n / 64 % 64, 128 + n % 64]

/-- UTF-8 encoding of a string, as `str.encode()` produces. -/
def utf8Bytes (s : String) : List Nat :=
  (s.data.map utf8Char).flatten

/-- Addition modulo 2^32. -/
def add32 (a b : Nat) : Nat :=
  (a + b) % 4294967296

/-- Right rotation of a 32-bit word by `n` places. -/
def rotr32 (n x : Nat) : Nat :=
  x / 2 ^ n + x % 2 ^ n * 2 ^ (32 - n)

/-- SHA-256 `Ch` function. -/
def chWord (x y z : Nat) : Nat :=
  Nat.xor (Nat.land x y) (Nat.land (Nat.xor x 4294967295) z)

/-- SHA-256 `Maj` function. -/
def majWord (x y z : Nat) : Nat :=
  Nat.xor (Nat.xor (Nat.land x y) (Nat.land x z)) (Nat.land y z)

/-- SHA-256 upper-case sigma-0. -/
def bigSigma0 (x : Nat) : Nat :=
  Nat.xor (Nat.xor (rotr32 2 x) (rotr32 13 x)) (rotr32 22 x)

/-- SHA-256 upper-case sigma-1. -/
def bigSigma1 (x : Nat) : Nat :=
  Nat.xor (Nat.xor (rotr32 6 x) (rotr32 11 x)) (rotr32 25 x)

/-- SHA-256 lower-case sigma-0. -/
def smallSigma0 (x : Nat) : Nat :=
  Nat.xor (Nat.xor (rotr32 7 x) (rotr32 18 x)) (x / 8)

/-- SHA-256 lower-case sigma-1. -/
def smallSigma1 (x : Nat) : Nat :=
  Nat.xor (Nat.xor (rotr32 17 x) (rotr32 19 x)) (x / 1024)

/-- SHA-256 round constants. -/
def sha256K : List Nat :=
  [1116352408, 1899447441, 3049323471, 3921009573,
   961987163, 1508970993, 2453635748, 2870763221,
   3624381080, 310598401, 607225278, 1426881987,
   1925078388, 2162078206, 2614888103, 3248222580,
   3835390401, 4022224774, 264347078, 604807628,
   770255983, 1249150122, 1555081692, 1996064986,
   2554220882, 2821834349, 2952996808, 3210313671,
   3336571891, 3584528711, 113926993, 338241895,
   666307205, 773529912, 1294757372, 1396182291,
   1695183700, 1986661051, 2177026350, 2456956037,
   2730485921, 2820302411, 3259730800, 3345764771,
   3516065817, 3600352804, 4094571909, 275423344,
   430227734, 506948616, 659060556, 883997877,
   958139571, 1322822218, 1537002063, 1747873779,
   1955562222, 2024104815, 2227730452, 2361852424,
   2428436474, 2756734187, 3204031479, 3329325298]

/-- Length of a message in bits as eight big-endian bytes. -/
def lenBytes (bits : Nat) : List Nat :=
  [bits / 2 ^ 56 % 256, bits / 2 ^ 48 % 256, bits / 2 ^ 40 % 256, bits / 2 ^ 32 % 256,
   bits / 2 ^ 24 % 256, bits / 2 ^ 16 % 256, bits / 2 ^ 8 % 256, bits % 256]

/-- SHA-256 message padding: a `0x80` byte, zeros to 56 mod 64, and the
bit length as eight big-endian bytes. -/
def padMsg (msg : List Nat) : List Nat :=
  msg ++ [128] ++ List.replicate ((64 - (msg.length + 9) % 64) % 64) 0 ++ lenBytes (8 * msg.length)

/-- Combine bytes into 32-bit big-endian words. -/
def group4 : List Nat → List Nat
  | b0 :: b1 :: b2 :: b3 :: rest => (((b0 * 256 + b1) * 256 + b2) * 256 + b3) :: group4 rest
  | _ => []

/-- Split a byte list into 64-byte blocks. -/
def chunk64 : List Nat → List (List Nat)
  | [] => []
  | c :: rest => (c :: rest).take 64 :: chunk64 ((c :: rest).drop 64)
termination_by l => l.length
decreasing_by
  simp [List.length_drop]
  omega

/-- Extend a 16-word block to the 64-word SHA-256 message schedule,
appending `k` more words. -/
def buildW : Nat → List Nat → List Nat
  | 0, w => w
  | k + 1, w =>
    buildW k (w ++ [add32 (add32 (smallSigma1 (w.getD (w.length - 2) 0)) (w.getD (w.length - 7) 0))
                    (add32 (smallSigma0 (w.getD (w.length - 15) 0)) (w.getD (w.length - 16) 0))])

/-- Eight-word SHA-256 hash state. -/
structure Sha256State where
  w0 : Nat
  w1 : Nat
  w2 : Nat
  w3 : Nat
  w4 : Nat
  w5 : Nat
  w6 : Nat
  w7 : Nat

/-- Working variables of one SHA-256 compression round. -/
structure Sha256Round where
  a : Nat
  b : Nat
  c : Nat
  d : Nat
  e : Nat
  f : Nat
  g : Nat
  h : Nat

/-- One SHA-256 compression round with constant-word pair `kw`. -/
def sha256Step (r : Sha256Round) (kw : Nat × Nat) : Sha256Round :=
  let t1 := add32 (add32 (add32 (add32 r.h (bigSigma1 r.e)) (chWord r.e r.f r.g)) kw.1) kw.2
  let t2 := add32 (bigSigma0 r.a) (majWord r.a r.b r.c)
  ⟨add32 t1 t2, r.a, r.b, r.c, add32 r.d t1, r.e, r.f, r.g⟩

/-- SHA-256 compression of one 64-byte block into the hash state. -/
def compressBlock (st : Sha256State) (block : List Nat) : Sha256State :=
  let w := buildW 48 (group4 block)
  let fin := (sha256K.zip w).foldl sha256Step ⟨st.w0, st.w1, st.w2, st.w3, st.w4, st.w5, st.w6, st.w7⟩
  ⟨add32 st.w0 fin.a, add32 st.w1 fin.b, add32 st.w2 fin.c, add32 st.w3 fin.d,
   add32 st.w4 fin.e, add32 st.w5 fin.f, add32 st.w6 fin.g, add32 st.w7 fin.h⟩

/-- SHA-256 initial hash state. -/
def sha256Init : Sha256State :=
  ⟨1779033703, 3144134277, 1013904242, 2773480762, 1359893119, 2600822924, 528734635, 1541459225⟩

/-- Eight lowercase hex digits of a 32-bit word. -/
def word2hex (n : Nat) : String :=
  String.mk
    [hexDigitChar (n / 16 ^ 7 % 16), hexDigitChar (n / 16 ^ 6 % 16), hexDigitChar (n / 16 ^ 5 % 16),
     hexDigitChar (n / 16 ^ 4 % 16), hexDigitChar (n / 16 ^ 3 % 16), hexDigitChar (n / 16 ^ 2 % 16),
     hexDigitChar (n / 16 % 16), hexDigitChar (n % 16)]

/-- SHA-256 hex digest of a byte sequence. -/
def sha256hexBytes (msg : List Nat) : String :=
  let st := (chunk64 (padMsg msg)).foldl compressBlock sha256Init
  word2hex st.w0 ++ word2hex st.w1 ++ word2hex st.w2 ++ word2hex st.w3 ++
  word2hex st.w4 ++ word2hex st.w5 ++ word2hex st.w6 ++ word2hex st.w7

/-- Model of `hashlib.sha256(s.encode()).hexdigest()`. -/
def sha256hex (s : String) : String :=
  sha256hexBytes (utf8Bytes s)

/-- Inbound request descriptor, carrying the fields the caching code can
observe.  `query` is the `(name, value)` pair sequence that
`request.query_params.items()` yields; `headers` is carried to state that
key derivation is independent of it.  `bodyRead` is the outcome of the
middleware's `asyncio.run(request.body()).decode("utf-8")` attempt:
`some s` when it returns text `s`, `none` when it raises (inside the
running event loop of the deployed middleware, `asyncio.run` always
raises `RuntimeError`, so the body contribution is omitted there). -/
structure Request where
  method : String
  path : String
  query : List (String × String)
  headers : List (String × String)
  bodyRead : Option String

/-- Order in which Python's `sorted` arranges `(name, value)` string
pairs: lexicographic tuple comparison, name first. -/
def pairLE (a b : String × String) : Prop :=
  a.1 < b.1 ∨ (a.1 = b.1 ∧ a.2 ≤ b.2)

instance : DecidableRel pairLE := fun a b => by
  unfold pairLE
  infer_instance

instance : IsTrans (String × String) pairLE where
  trans a b c hab hbc := by
    rcases hab with h1 | ⟨h1, h2⟩ <;> rcases hbc with h3 | ⟨h3, h4⟩
    · exact Or.inl (lt_trans h1 h3)
    · exact Or.inl (h3 ▸ h1)
    · exact Or.inl (h1 ▸ h3)
    · exact Or.inr ⟨h1.trans h3, le_trans h2 h4⟩

instance : IsTotal (String × String) pairLE where
  total a b := by
    rcases lt_trichotomy a.1 b.1 with h | h | h
    · exact Or.inl (Or.inl h)
    · rcases le_total a.2 b.2 with h2 | h2
      · exact Or.inl (Or.inr ⟨h, h2⟩)
      · exact Or.inr (Or.inr ⟨h.symm, h2⟩)
    · exact Or.inr (Or.inl h)

instance : IsAntisymm (String × String) pairLE where
  antisymm a b hab hba := by
    rcases hab with h1 | ⟨h1, h2⟩ <;> rcases hba with h3 | ⟨h3, h4⟩
    · exact absurd (lt_trans h1 h3) (lt_irrefl a.1)
    · exact absurd h1 (h3 ▸ lt_irrefl b.1)
    · exact absurd h3 (h1 ▸ lt_irrefl a.1)
    · exact Prod.ext h1 (le_antisymm h2 h4)

/-- Model of `sorted(request.query_params.items())`: the canonical sorted
arrangement of the pairs under lexicographic tuple comparison.  Any
correct sorting algorithm (Python's Timsort included) returns this list,
since the order is total and antisymmetric. -/
def sortPairs (q : List (String × String)) : List (String × String) :=
  List.insertionSort pairLE q

theorem sortPairs_perm (q : List (String × String)) : (sortPairs q).Perm q :=
  List.perm_insertionSort pairLE q

theorem sortPairs_eq_of_perm {q1 q2 : List (String × String)} (h : q1.Perm q2) :
    sortPairs q1 = sortPairs q2 :=
  List.eq_of_perm_of_sorted ((sortPairs_perm q1).trans (h.trans (sortPairs_perm q2).symm))
    (List.sorted_insertionSort pairLE q1) (List.sorted_insertionSort pairLE q2)

/-- The serialized hash input of `make_cache_key`: the result of
`json.dumps(key_data, sort_keys=True)` where `key_data` holds `method`,
`url` (the request path), `query` (the sorted pair tuple, serialized as a
JSON array of two-element arrays), and — only for POST/PUT/PATCH requests
whose body read succeeded — `body`.  With `sort_keys=True` the keys
serialize in the order `body`, `method`, `query`, `url`. -/
def rawKeyData (r : Request) : String :=
  let queryStr :=
    "[" ++ String.intercalate ", "
      ((sortPairs r.query).map fun p => "[" ++ dumpsStr p.1 ++ ", " ++ dumpsStr p.2 ++ "]") ++ "]"
  let base :=
    dumpsStr "method" ++ ": " ++ dumpsStr r.method ++ ", " ++
    dumpsStr "query" ++ ": " ++ queryStr ++ ", " ++
    dumpsStr "url" ++ ": " ++ dumpsStr r.path
  match (if r.method = "POST" ∨ r.method = "PUT" ∨ r.method = "PATCH" then r.bodyRead else none) with
  | some b => "\x7b" ++ dumpsStr "body" ++ ": " ++ dumpsStr b ++ ", " ++ base ++ "\x7d"
  | none => "\x7b" ++ base ++ "\x7d"

/-- Model of `make_cache_key`: the SHA-256 hex digest of the serialized
`key_data`. -/
def make_cache_key (r : Request) : String :=
  sha256hex (rawKeyData r)

/-- The process-local cache `redis_cache`: a Python dict from cache keys to
arbitrary Python values.  The middleware always uses the hex-digest string
as key; the subscriber uses whatever the event's `key` field holds, so the
map is keyed by Python values. -/
def Store : Type := Json → Option Json

/-- Dict write `store[k] = v`. -/
def storeSet (s : Store) (k v : Json) : Store :=
  fun x => if Json.beq x k then some v else s x

/-- Dict removal `store.pop(k, None)`. -/
def storeDel (s : Store) (k : Json) : Store :=
  fun x => if Json.beq x k then none else s x

/-- The empty dict. -/
def emptyStore : Store :=
  fun _ => none

/-- One entry of the remote key/value store: the stored string and the
expiry (in seconds) it was set with, `redis_cli.set(..., ex=...)`. -/
structure RedisVal where
  value : String
  ttl : Option Nat

/-- The remote Redis key/value store contents. -/
def RedisStore : Type := String → Option RedisVal

/-- Remote write `redis_cli.set(k, v, ex=ttl)`. -/
def redisSet (s : RedisStore) (k : String) (v : String) (ttl : Option Nat) : RedisStore :=
  fun x => if x = k then some ⟨v, ttl⟩ else s x

/-- The empty remote store. -/
def emptyRedis : RedisStore :=
  fun _ => none

/-- The downstream handler's response as `call_next` returns it: a status
code and the chunks its `body_iterator` will yield. -/
structure StreamResp where
  status_code : Int
  chunks : List String

/-- The response object the middleware hands back to the caller: either a
`JSONResponse` it constructed from a cache entry, or the downstream
response object itself (whose remaining `body_iterator` contents are what
the caller will receive as body). -/
inductive Resp where
  | jsonResponse (content : Json) (status : Json)
  | stream (r : StreamResp)

/-- Outcomes of the external calls one request can make: whether the
optional `fastapi_limiter` dependency is importable (`_has_limiter`),
whether the Redis `get` and `set` round-trips succeed (`false` models the
connection raising), and the response the downstream handler produces on
invocation. -/
structure Env where
  hasLimiter : Bool
  redisGetOk : Bool
  redisSetOk : Bool
  downstream : StreamResp

/-- Everything one middleware invocation leaves behind: the response or
the exception that escaped, both cache tiers afterwards, whether the
downstream handler ran, and the invalidation events published on the
channel during the request. -/
structure MWResult where
  response : Except PyErr Resp
  localAfter : Store
  redisAfter : RedisStore
  downstreamCalled : Bool
  published : List String

/-- The `cache_entry` dict the middleware builds from a drained downstream
response: the concatenated body chunks, parsed as JSON when possible and
kept as the raw text otherwise, together with the status code. -/
def cacheEntryOf (response : StreamResp) : Json :=
  let resp_body := String.join response.chunks
  let data := (Json.loads resp_body).getD (.str resp_body)
  Json.obj [("data", data), ("status_code", .num response.status_code)]

/-- The full-cache-miss tail of the middleware (from `response = await
call_next(request)` on): invoke the downstream handler; for a cacheable
method with status exactly 200, drain the response's `body_iterator` to
build the entry, store it in `redis_cache`, then `redis_cli.set` it with
`ex=60` — returning the same response object, whose iterator is now
exhausted, so its remaining chunks are empty; otherwise pass the response
through untouched.  The code publishes nothing on the channel. -/
def cacheMissPath (env : Env) (localStore : Store) (redisStore : RedisStore)
    (request : Request) (cache_key : String) : MWResult :=
  let response := env.downstream
  if (request.method = "GET" ∨ request.method = "HEAD" ∨ request.method = "OPTIONS")
      ∧ response.status_code = 200 then
    let cache_entry := cacheEntryOf response
    let localAfter := storeSet localStore (.str cache_key) cache_entry
    if !env.redisSetOk then
      ⟨.error .connectionError, localAfter, redisStore, true, []⟩
    else
      ⟨.ok (.stream ⟨response.status_code, []⟩), localAfter,
       redisSet redisStore cache_key (Json.dumps cache_entry) (some 60), true, []⟩
  else
    ⟨.ok (.stream response), localStore, redisStore, true, []⟩

/-- Model of `redis_cache_middleware`: pass through when the optional
dependency is missing; otherwise derive the key, try `redis_cache`, then
`redis_cli.get` (whose failure raises out of the middleware), treating a
`None` or empty reply as a miss, parsing a non-empty reply with
`json.loads` (whose failure also raises), mirroring a parsed hit into
`redis_cache` before building its `JSONResponse`, and falling back to
`cacheMissPath` on a full miss. -/
def redis_cache_middleware (env : Env) (localStore : Store) (redisStore : RedisStore)
    (request : Request) : MWResult :=
  if !env.hasLimiter then
    ⟨.ok (.stream env.downstream), localStore, redisStore, true, []⟩
  else
    let cache_key := make_cache_key request
    match localStore (.str cache_key) with
    | some entry =>
      ⟨(match pyIndex entry "data" with
         | .error e => .error e
         | .ok d =>
           match pyIndex entry "status_code" with
           | .error e => .error e
           | .ok st => .ok (.jsonResponse d st)),
       localStore, redisStore, false, []⟩
    | none =>
      if !env.redisGetOk then
        ⟨.error .connectionError, localStore, redisStore, false, []⟩
      else
        match redisStore cache_key with
        | some rv =>
          if rv.value = "" then
            cacheMissPath env localStore redisStore request cache_key
          else
            match Json.loads rv.value with
            | none => ⟨.error .jsonDecodeError, localStore, redisStore, false, []⟩
            | some cached_data =>
              ⟨(match pyIndex cached_data "data" with
                 | .error e => .error e
                 | .ok d =>
                   match pyIndex cached_data "status_code" with
                   | .error e => .error e
                   | .ok st => .ok (.jsonResponse d st)),
               storeSet localStore (.str cache_key) cached_data, redisStore, false, []⟩
        | none => cacheMissPath env localStore redisStore request cache_key

/-- Application of one parsed invalidation event to `redis_cache`, the
body of `redis_subscriber`'s loop after `json.loads`: on `evict` with the
key present, pop it; on `add` with a truthy key, overwrite the entry with
the event's `value` field (`None` when the field is absent); anything else
leaves the store untouched.  `event.get` raises `AttributeError` when the
parsed message is not an object. -/
def applyParsedEvent (store : Store) (event : Json) : Except PyErr Store :=
  match pyGet event "action" with
  | .error e => .error e
  | .ok action =>
    match pyGet event "key" with
    | .error e => .error e
    | .ok key =>
      if Json.beq action (.str "evict") && (store key).isSome then
        .ok (storeDel store key)
      else if Json.beq action (.str "add") && key.truthy then
        match pyGet event "value" with
        | .error e => .error e
        | .ok value => .ok (storeSet store key value)
      else
        .ok store

/-- One arrival on the subscription: a pub/sub message of type
`"message"` with its payload, a message of another type (which the loop
skips), or the subscription connection dropping (which makes the async
iterator raise). -/
inductive SubMsg where
  | msg (payload : String)
  | otherType
  | connDrop

/-- One iteration of `redis_subscriber`'s `async for` loop: a connection
drop raises; a non-`"message"` arrival is skipped; a payload is parsed
with `json.loads` (whose failure raises) and applied. -/
def subscriberStep (store : Store) (m : SubMsg) : Except PyErr Store :=
  match m with
  | .connDrop => .error .connectionError
  | .otherType => .ok store
  | .msg payload =>
    match Json.loads payload with
    | none => .error .jsonDecodeError
    | some event => applyParsedEvent store event

/-- Model of the `redis_subscriber` task run against a finite prefix of
the arrival stream: iterate `subscriberStep`; the first raising step
terminates the task (the coroutine has no exception handling and no
reconnect loop), leaving the store as it was and the rest of the stream
undrained. -/
def runSubscriber (store : Store) : List SubMsg → Store × Option PyErr
  | [] => (store, none)
  | m :: rest =>
    match subscriberStep store m with
    | .ok s2 => runSubscriber s2 rest
    | .error e => (store, some e)

theorem storeSet_self (s : Store) (k v : Json) : storeSet s k v k = some v := by
  simp [storeSet, Json.beq_refl]

theorem storeSet_idem (s : Store) (k v : Json) : storeSet (storeSet s k v) k v = storeSet s k v := by
  funext x
  cases h : Json.beq x k <;> simp [storeSet, h]

theorem sha256hex_ne_empty (s : String) : sha256hex s ≠ "" := by
  intro h
  have h2 := congrArg String.data h
  simp [sha256hex, sha256hexBytes, word2hex, String.data_append] at h2

/-- C4: cache-key derivation is deterministic in the request's method,
path, query-parameter set and (for mutating methods) body: two requests
agreeing on method and path, whose query pair lists are permutations of
one another, and whose body reads agree whenever the method is
POST/PUT/PATCH, derive the identical cache key, because the query pairs
are sorted and the hash input is serialized with sorted keys before
hashing. -/
theorem make_cache_key_deterministic (r1 r2 : Request)
    (hm : r1.method = r2.method) (hp : r1.path = r2.path)
    (hq : r1.query.Perm r2.query)
    (hb : (r1.method = "POST" ∨ r1.method = "PUT" ∨ r1.method = "PATCH") →
      r1.bodyRead = r2.bodyRead) :
    make_cache_key r1 = make_cache_key r2 := by
  unfold make_cache_key
  congr 1
  have hbody : (if r2.method = "POST" ∨ r2.method = "PUT" ∨ r2.method = "PATCH"
        then r1.bodyRead else none)
      = (if r2.method = "POST" ∨ r2.method = "PUT" ∨ r2.method = "PATCH"
        then r2.bodyRead else none) := by
    by_cases hc : r2.method = "POST" ∨ r2.method = "PUT" ∨ r2.method = "PATCH"
    · rw [if_pos hc, if_pos hc, hb (by rw [hm]; exact hc)]
    · rw [if_neg hc, if_neg hc]
  simp only [rawKeyData, sortPairs_eq_of_perm hq, hm, hp, hbody]

theorem make_cache_key_deterministic_witness :
    make_cache_key ⟨"GET", "/items/", [("b", "2"), ("a", "1")], [("x", "1")], none⟩
      = make_cache_key ⟨"GET", "/items/", [("a", "1"), ("b", "2")], [], some "ignored"⟩ :=
  make_cache_key_deterministic _ _ rfl rfl (List.Perm.swap _ _ _)
    (fun h => absurd h (by decide))

/-- Key computed from the method, the path and the sorted query
parameters only, the body contribution omitted: the fallback §4.1 of the
spec prescribes when the body cannot be read. -/
def keyNoBody (r : Request) : String :=
  sha256hex ("\x7b" ++
    (dumpsStr "method" ++ ": " ++ dumpsStr r.method ++ ", " ++
     dumpsStr "query" ++ ": " ++
     ("[" ++ String.intercalate ", "
       ((sortPairs r.query).map fun p => "[" ++ dumpsStr p.1 ++ ", " ++ dumpsStr p.2 ++ "]") ++
      "]") ++ ", " ++
     dumpsStr "url" ++ ": " ++ dumpsStr r.path) ++ "\x7d")

/-- C8: for a POST, PUT or PATCH request whose body cannot be read, key
derivation still produces a key, computed from the method, path and
sorted query parameters with the body contribution omitted. -/
theorem make_cache_key_body_failure (r : Request)
    (_hmut : r.method = "POST" ∨ r.method = "PUT" ∨ r.method = "PATCH")
    (hfail : r.bodyRead = none) :
    make_cache_key r = keyNoBody r := by
  simp only [make_cache_key, keyNoBody, rawKeyData, hfail, ite_self]

theorem make_cache_key_body_failure_witness :
    make_cache_key ⟨"POST", "/items/", [("a", "1")], [], none⟩
      = keyNoBody ⟨"POST", "/items/", [("a", "1")], [], none⟩ :=
  make_cache_key_body_failure _ (Or.inl rfl) rfl

/-- C7: applying invalidation events to the local store is idempotent: an
`evict` event for a key absent from the store leaves the store unchanged
with no error, and applying the same `add` event twice leaves the store in
the same observable state as applying it once, because `add`
unconditionally overwrites the entry for its key. -/
theorem invalidation_idempotent :
    (∀ (store : Store) (k : Json), store k = none →
      applyParsedEvent store (.obj [("action", .str "evict"), ("key", k)]) = .ok store)
    ∧ (∀ (store : Store) (k v : Json),
      (applyParsedEvent store (.obj [("action", .str "add"), ("key", k), ("value", v)])).bind
          (fun s1 =>
            applyParsedEvent s1 (.obj [("action", .str "add"), ("key", k), ("value", v)]))
        = applyParsedEvent store (.obj [("action", .str "add"), ("key", k), ("value", v)])) := by
  constructor
  · intro store k habs
    simp [applyParsedEvent, pyGet, lookupLast, Json.beq, habs]
  · intro store k v
    cases ht : k.truthy <;>
      simp [applyParsedEvent, pyGet, lookupLast, Json.beq, ht, storeSet_idem, Except.bind]

theorem invalidation_idempotent_witness :
    applyParsedEvent emptyStore (.obj [("action", .str "evict"), ("key", .str "k1")])
      = .ok emptyStore
    ∧ (applyParsedEvent emptyStore
          (.obj [("action", .str "add"), ("key", .str "k1"), ("value", .num 7)])).bind
        (fun s1 => applyParsedEvent s1
          (.obj [("action", .str "add"), ("key", .str "k1"), ("value", .num 7)]))
      = applyParsedEvent emptyStore
          (.obj [("action", .str "add"), ("key", .str "k1"), ("value", .num 7)]) :=
  ⟨invalidation_idempotent.1 emptyStore _ rfl, invalidation_idempotent.2 emptyStore _ _⟩

/-- C9: an `add` invalidation message with a non-empty key and no `value`
field stores `None` under that key without validation, and a later request
whose derived key hits that entry raises a `TypeError` when the middleware
reads the entry's `data` field — the request is neither served from cache
nor recomputed downstream. -/
theorem add_event_null_value_poisons_cache :
    (∀ (store : Store) (k : String), k ≠ "" →
      applyParsedEvent store (.obj [("action", .str "add"), ("key", .str k)])
        = .ok (storeSet store (.str k) .null))
    ∧ (∀ (env : Env) (ls : Store) (rs : RedisStore) (r : Request),
      env.hasLimiter = true → ls (.str (make_cache_key r)) = some .null →
      (redis_cache_middleware env ls rs r).response = .error .typeError
      ∧ (redis_cache_middleware env ls rs r).downstreamCalled = false) := by
  constructor
  · intro store k hk
    simp [applyParsedEvent, pyGet, lookupLast, Json.beq, Json.truthy, hk]
  · intro env ls rs r hlim hhit
    simp [redis_cache_middleware, hlim, hhit, pyIndex]

theorem add_event_null_value_poisons_cache_witness :
    applyParsedEvent emptyStore
        (.obj [("action", .str "add"),
               ("key", .str (make_cache_key ⟨"GET", "/items/", [], [], none⟩))])
      = .ok (storeSet emptyStore (.str (make_cache_key ⟨"GET", "/items/", [], [], none⟩)) .null)
    ∧ (redis_cache_middleware ⟨true, true, true, ⟨200, ["x"]⟩⟩
        (storeSet emptyStore (.str (make_cache_key ⟨"GET", "/items/", [], [], none⟩)) .null)
        emptyRedis ⟨"GET", "/items/", [], [], none⟩).response = .error .typeError
    ∧ (redis_cache_middleware ⟨true, true, true, ⟨200, ["x"]⟩⟩
        (storeSet emptyStore (.str (make_cache_key ⟨"GET", "/items/", [], [], none⟩)) .null)
        emptyRedis ⟨"GET", "/items/", [], [], none⟩).downstreamCalled = false :=
  ⟨add_event_null_value_poisons_cache.1 emptyStore _ (sha256hex_ne_empty _),
   (add_event_null_value_poisons_cache.2 _ _ _ _ rfl (storeSet_self _ _ _)).1,
   (add_event_null_value_poisons_cache.2 _ _ _ _ rfl (storeSet_self _ _ _)).2⟩

theorem redisSet_self (s : RedisStore) (k v : String) (t : Option Nat) :
    redisSet s k v t k = some ⟨v, t⟩ := by
  simp [redisSet]

/-- C2: the interceptor derives the cache key and checks the local store
first: on a local hit it returns the stored status and payload with no
downstream invocation; on a local miss with a distributed hit it parses
the fetched entry, writes it into the local mirror, and returns the stored
status and payload, again with no downstream invocation. -/
theorem cache_hit_short_circuits :
    (∀ (env : Env) (ls : Store) (rs : RedisStore) (r : Request) (entry d st : Json),
      env.hasLimiter = true →
      ls (.str (make_cache_key r)) = some entry →
      pyIndex entry "data" = .ok d → pyIndex entry "status_code" = .ok st →
      (redis_cache_middleware env ls rs r).response = .ok (.jsonResponse d st)
      ∧ (redis_cache_middleware env ls rs r).downstreamCalled = false)
    ∧ (∀ (env : Env) (ls : Store) (rs : RedisStore) (r : Request) (rv : RedisVal)
        (j d st : Json),
      env.hasLimiter = true →
      ls (.str (make_cache_key r)) = none →
      env.redisGetOk = true →
      rs (make_cache_key r) = some rv → rv.value ≠ "" →
      Json.loads rv.value = some j →
      pyIndex j "data" = .ok d → pyIndex j "status_code" = .ok st →
      (redis_cache_middleware env ls rs r).response = .ok (.jsonResponse d st)
      ∧ (redis_cache_middleware env ls rs r).localAfter
          = storeSet ls (.str (make_cache_key r)) j
      ∧ (redis_cache_middleware env ls rs r).downstreamCalled = false) := by
  constructor
  · intro env ls rs r entry d st hlim hhit hd hst
    simp [redis_cache_middleware, hlim, hhit, hd, hst]
  · intro env ls rs r rv j d st hlim hmiss hget hrv hne hloads hd hst
    simp [redis_cache_middleware, hlim, hmiss, hget, hrv, hne, hloads, hd, hst]

theorem cache_hit_short_circuits_witness :
    (redis_cache_middleware ⟨true, true, true, ⟨200, ["x"]⟩⟩
        (storeSet emptyStore (.str (make_cache_key ⟨"GET", "/a", [], [], none⟩))
          (.obj [("data", .num 5), ("status_code", .num 200)]))
        emptyRedis ⟨"GET", "/a", [], [], none⟩).response
      = .ok (.jsonResponse (.num 5) (.num 200))
    ∧ (redis_cache_middleware ⟨true, true, true, ⟨200, ["x"]⟩⟩
        (storeSet emptyStore (.str (make_cache_key ⟨"GET", "/a", [], [], none⟩))
          (.obj [("data", .num 5), ("status_code", .num 200)]))
        emptyRedis ⟨"GET", "/a", [], [], none⟩).downstreamCalled = false
    ∧ (redis_cache_middleware ⟨true, true, true, ⟨200, ["x"]⟩⟩ emptyStore
        (redisSet emptyRedis (make_cache_key ⟨"GET", "/a", [], [], none⟩)
          "\x7b\"data\": 5, \"status_code\": 200\x7d" (some 60))
        ⟨"GET", "/a", [], [], none⟩).response
      = .ok (.jsonResponse (.num 5) (.num 200))
    ∧ (redis_cache_middleware ⟨true, true, true, ⟨200, ["x"]⟩⟩ emptyStore
        (redisSet emptyRedis (make_cache_key ⟨"GET", "/a", [], [], none⟩)
          "\x7b\"data\": 5, \"status_code\": 200\x7d" (some 60))
        ⟨"GET", "/a", [], [], none⟩).downstreamCalled = false :=
  ⟨(cache_hit_short_circuits.1 _ _ _ ⟨"GET", "/a", [], [], none⟩
      (.obj [("data", .num 5), ("status_code", .num 200)]) (.num 5) (.num 200)
      rfl (storeSet_self _ _ _) rfl rfl).1,
   (cache_hit_short_circuits.1 _ _ _ ⟨"GET", "/a", [], [], none⟩
      (.obj [("data", .num 5), ("status_code", .num 200)]) (.num 5) (.num 200)
      rfl (storeSet_self _ _ _) rfl rfl).2,
   (cache_hit_short_circuits.2 _ _ _ ⟨"GET", "/a", [], [], none⟩
     ⟨"\x7b\"data\": 5, \"status_code\": 200\x7d", some 60⟩
     (.obj [("data", .num 5), ("status_code", .num 200)]) (.num 5) (.num 200)
     rfl rfl rfl (redisSet_self _ _ _ _) (by decide) rfl rfl rfl).1,
   (cache_hit_short_circuits.2 _ _ _ ⟨"GET", "/a", [], [], none⟩
     ⟨"\x7b\"data\": 5, \"status_code\": 200\x7d", some 60⟩
     (.obj [("data", .num 5), ("status_code", .num 200)]) (.num 5) (.num 200)
     rfl rfl rfl (redisSet_self _ _ _ _) (by decide) rfl rfl rfl).2.2⟩

/-- C10: request headers never influence the cache key — two requests
identical in method, path, query parameters and body read but with
arbitrary headers derive the same key — and consequently a response
cached under that key is served verbatim for either request with no
downstream invocation. -/
theorem headers_never_influence_key (m p : String) (q hs1 hs2 : List (String × String))
    (b : Option String) (env : Env) (ls : Store) (rs : RedisStore) (entry d st : Json)
    (hlim : env.hasLimiter = true)
    (hhit : ls (.str (make_cache_key ⟨m, p, q, hs1, b⟩)) = some entry)
    (hd : pyIndex entry "data" = .ok d)
    (hst : pyIndex entry "status_code" = .ok st) :
    make_cache_key ⟨m, p, q, hs1, b⟩ = make_cache_key ⟨m, p, q, hs2, b⟩
    ∧ (redis_cache_middleware env ls rs ⟨m, p, q, hs1, b⟩).response = .ok (.jsonResponse d st)
    ∧ (redis_cache_middleware env ls rs ⟨m, p, q, hs2, b⟩).response = .ok (.jsonResponse d st)
    ∧ (redis_cache_middleware env ls rs ⟨m, p, q, hs1, b⟩).downstreamCalled = false
    ∧ (redis_cache_middleware env ls rs ⟨m, p, q, hs2, b⟩).downstreamCalled = false := by
  have hhit2 : ls (.str (make_cache_key ⟨m, p, q, hs2, b⟩)) = some entry := hhit
  exact ⟨rfl,
    (cache_hit_short_circuits.1 _ _ _ _ _ _ _ hlim hhit hd hst).1,
    (cache_hit_short_circuits.1 _ _ _ _ _ _ _ hlim hhit2 hd hst).1,
    (cache_hit_short_circuits.1 _ _ _ _ _ _ _ hlim hhit hd hst).2,
    (cache_hit_short_circuits.1 _ _ _ _ _ _ _ hlim hhit2 hd hst).2⟩

theorem headers_never_influence_key_witness :
    make_cache_key ⟨"GET", "/a", [], [("authorization", "secret1")], none⟩
      = make_cache_key ⟨"GET", "/a", [], [("authorization", "secret2")], none⟩
    ∧ (redis_cache_middleware ⟨true, true, true, ⟨200, ["x"]⟩⟩
        (storeSet emptyStore
          (.str (make_cache_key ⟨"GET", "/a", [], [("authorization", "secret1")], none⟩))
          (.obj [("data", .num 5), ("status_code", .num 200)]))
        emptyRedis ⟨"GET", "/a", [], [("authorization", "secret2")], none⟩).response
      = .ok (.jsonResponse (.num 5) (.num 200)) :=
  ⟨(headers_never_influence_key "GET" "/a" [] [("authorization", "secret1")]
      [("authorization", "secret2")] none ⟨true, true, true, ⟨200, ["x"]⟩⟩
      (storeSet emptyStore
        (.str (make_cache_key ⟨"GET", "/a", [], [("authorization", "secret1")], none⟩))
        (.obj [("data", .num 5), ("status_code", .num 200)]))
      emptyRedis
      (.obj [("data", .num 5), ("status_code", .num 200)]) (.num 5) (.num 200)
      rfl (storeSet_self emptyStore _ _) rfl rfl).1,
   (headers_never_influence_key "GET" "/a" [] [("authorization", "secret1")]
      [("authorization", "secret2")] none ⟨true, true, true, ⟨200, ["x"]⟩⟩
      (storeSet emptyStore
        (.str (make_cache_key ⟨"GET", "/a", [], [("authorization", "secret1")], none⟩))
        (.obj [("data", .num 5), ("status_code", .num 200)]))
      emptyRedis
      (.obj [("data", .num 5), ("status_code", .num 200)]) (.num 5) (.num 200)
      rfl (storeSet_self emptyStore _ _) rfl rfl).2.2.1⟩

/-- C1 counterexample: a GET request with a downstream 200 response, after
a full cache miss with both tiers reachable, stores the entry in the local
store and in the distributed store with the 60-second expiry, yet the list
of invalidation events published during the request is empty — the
middleware never publishes an `add` event. -/
theorem no_add_event_published_counterexample :
    (redis_cache_middleware ⟨true, true, true, ⟨200, ["[]"]⟩⟩ emptyStore emptyRedis
        ⟨"GET", "/items/", [], [], none⟩).published = []
    ∧ (redis_cache_middleware ⟨true, true, true, ⟨200, ["[]"]⟩⟩ emptyStore emptyRedis
        ⟨"GET", "/items/", [], [], none⟩).localAfter
          (.str (make_cache_key ⟨"GET", "/items/", [], [], none⟩))
        = some (cacheEntryOf ⟨200, ["[]"]⟩)
    ∧ (redis_cache_middleware ⟨true, true, true, ⟨200, ["[]"]⟩⟩ emptyStore emptyRedis
        ⟨"GET", "/items/", [], [], none⟩).redisAfter
          (make_cache_key ⟨"GET", "/items/", [], [], none⟩)
        = some ⟨Json.dumps (cacheEntryOf ⟨200, ["[]"]⟩), some 60⟩ := by
  refine ⟨?_, ?_, ?_⟩ <;>
    simp [redis_cache_middleware, cacheMissPath, emptyStore, emptyRedis,
      storeSet_self, redisSet_self]

/-- C1 amended: on a full cache miss, a cacheable method (GET/HEAD/OPTIONS)
with downstream status exactly 200 leads the middleware to store the
constructed entry in the local store and in the distributed store with the
fixed 60-second time-to-live, but it publishes no invalidation event; every
other request passes through unmodified with nothing written to either
tier and nothing published. -/
theorem store_both_tiers_no_publish (env : Env) (ls : Store) (rs : RedisStore) (r : Request)
    (hlim : env.hasLimiter = true)
    (hmiss : ls (.str (make_cache_key r)) = none)
    (hget : env.redisGetOk = true)
    (hrmiss : rs (make_cache_key r) = none) :
    ((r.method = "GET" ∨ r.method = "HEAD" ∨ r.method = "OPTIONS") →
      env.downstream.status_code = 200 → env.redisSetOk = true →
      (redis_cache_middleware env ls rs r).localAfter
          = storeSet ls (.str (make_cache_key r)) (cacheEntryOf env.downstream)
      ∧ (redis_cache_middleware env ls rs r).redisAfter
          = redisSet rs (make_cache_key r) (Json.dumps (cacheEntryOf env.downstream)) (some 60)
      ∧ (redis_cache_middleware env ls rs r).published = [])
    ∧ (¬((r.method = "GET" ∨ r.method = "HEAD" ∨ r.method = "OPTIONS")
          ∧ env.downstream.status_code = 200) →
      (redis_cache_middleware env ls rs r).response = .ok (.stream env.downstream)
      ∧ (redis_cache_middleware env ls rs r).localAfter = ls
      ∧ (redis_cache_middleware env ls rs r).redisAfter = rs
      ∧ (redis_cache_middleware env ls rs r).published = []) := by
  constructor
  · intro hc hst hset
    simp [redis_cache_middleware, cacheMissPath, hlim, hmiss, hget, hrmiss, hset, hc, hst]
  · intro hnc
    simp [redis_cache_middleware, cacheMissPath, hlim, hmiss, hget, hrmiss, hnc]

theorem store_both_tiers_no_publish_witness :
    (redis_cache_middleware ⟨true, true, true, ⟨200, ["[]"]⟩⟩ emptyStore emptyRedis
        ⟨"GET", "/items/", [], [], none⟩).localAfter
      = storeSet emptyStore (.str (make_cache_key ⟨"GET", "/items/", [], [], none⟩))
          (cacheEntryOf ⟨200, ["[]"]⟩)
    ∧ (redis_cache_middleware ⟨true, true, true, ⟨200, ["[]"]⟩⟩ emptyStore emptyRedis
        ⟨"GET", "/items/", [], [], none⟩).published = []
    ∧ (redis_cache_middleware ⟨true, true, true, ⟨201, ["x"]⟩⟩ emptyStore emptyRedis
        ⟨"POST", "/items/", [], [], none⟩).response = .ok (.stream ⟨201, ["x"]⟩)
    ∧ (redis_cache_middleware ⟨true, true, true, ⟨201, ["x"]⟩⟩ emptyStore emptyRedis
        ⟨"POST", "/items/", [], [], none⟩).localAfter = emptyStore :=
  ⟨((store_both_tiers_no_publish ⟨true, true, true, ⟨200, ["[]"]⟩⟩ emptyStore emptyRedis
      ⟨"GET", "/items/", [], [], none⟩ rfl rfl rfl rfl).1 (Or.inl rfl) rfl rfl).1,
   ((store_both_tiers_no_publish ⟨true, true, true, ⟨200, ["[]"]⟩⟩ emptyStore emptyRedis
      ⟨"GET", "/items/", [], [], none⟩ rfl rfl rfl rfl).1 (Or.inl rfl) rfl rfl).2.2,
   ((store_both_tiers_no_publish ⟨true, true, true, ⟨201, ["x"]⟩⟩ emptyStore emptyRedis
      ⟨"POST", "/items/", [], [], none⟩ rfl rfl rfl rfl).2 (by decide)).1,
   ((store_both_tiers_no_publish ⟨true, true, true, ⟨201, ["x"]⟩⟩ emptyStore emptyRedis
      ⟨"POST", "/items/", [], [], none⟩ rfl rfl rfl rfl).2 (by decide)).2.1⟩

/-- C3 counterexample: with the distributed store unreachable on `get`,
a request that misses the local store raises `ConnectionError` out of the
middleware without ever invoking the downstream handler — the caching
failure is not treated as a cache-absent result. -/
theorem cache_errors_fail_request_counterexample :
    (redis_cache_middleware ⟨true, false, true, ⟨200, ["x"]⟩⟩ emptyStore emptyRedis
        ⟨"GET", "/a", [], [], none⟩).response = .error .connectionError
    ∧ (redis_cache_middleware ⟨true, false, true, ⟨200, ["x"]⟩⟩ emptyStore emptyRedis
        ⟨"GET", "/a", [], [], none⟩).downstreamCalled = false := by
  constructor <;> simp [redis_cache_middleware, emptyStore]

/-- C3 amended: errors in the caching subsystem are not contained but
propagate and fail the request: an unreachable distributed store on `get`
raises before the downstream handler is invoked; a cached value that is
not decodable JSON raises `json.JSONDecodeError` before the downstream
handler is invoked; and an unreachable distributed store on `set` raises
after the downstream handler ran and the local store was written, losing
the response. -/
theorem cache_errors_propagate (env : Env) (ls : Store) (rs : RedisStore) (r : Request)
    (hlim : env.hasLimiter = true)
    (hmiss : ls (.str (make_cache_key r)) = none) :
    (env.redisGetOk = false →
      (redis_cache_middleware env ls rs r).response = .error .connectionError
      ∧ (redis_cache_middleware env ls rs r).downstreamCalled = false)
    ∧ (∀ rv, env.redisGetOk = true → rs (make_cache_key r) = some rv → rv.value ≠ "" →
      Json.loads rv.value = none →
      (redis_cache_middleware env ls rs r).response = .error .jsonDecodeError
      ∧ (redis_cache_middleware env ls rs r).downstreamCalled = false)
    ∧ (env.redisGetOk = true → rs (make_cache_key r) = none →
      (r.method = "GET" ∨ r.method = "HEAD" ∨ r.method = "OPTIONS") →
      env.downstream.status_code = 200 → env.redisSetOk = false →
      (redis_cache_middleware env ls rs r).response = .error .connectionError
      ∧ (redis_cache_middleware env ls rs r).downstreamCalled = true
      ∧ (redis_cache_middleware env ls rs r).localAfter
          = storeSet ls (.str (make_cache_key r)) (cacheEntryOf env.downstream)) := by
  refine ⟨?_, ?_, ?_⟩
  · intro hget
    simp [redis_cache_middleware, hlim, hmiss, hget]
  · intro rv hget hrv hne hbad
    simp [redis_cache_middleware, hlim, hmiss, hget, hrv, hne, hbad]
  · intro hget hrmiss hc hst hset
    simp [redis_cache_middleware, cacheMissPath, hlim, hmiss, hget, hrmiss, hc, hst, hset]

theorem cache_errors_propagate_witness :
    (redis_cache_middleware ⟨true, false, true, ⟨200, ["x"]⟩⟩ emptyStore emptyRedis
        ⟨"GET", "/a", [], [], none⟩).response = .error .connectionError
    ∧ (redis_cache_middleware ⟨true, true, true, ⟨200, ["x"]⟩⟩ emptyStore
        (redisSet emptyRedis (make_cache_key ⟨"GET", "/a", [], [], none⟩) "not json" (some 60))
        ⟨"GET", "/a", [], [], none⟩).response = .error .jsonDecodeError
    ∧ (redis_cache_middleware ⟨true, true, false, ⟨200, ["x"]⟩⟩ emptyStore emptyRedis
        ⟨"GET", "/a", [], [], none⟩).response = .error .connectionError
    ∧ (redis_cache_middleware ⟨true, true, false, ⟨200, ["x"]⟩⟩ emptyStore emptyRedis
        ⟨"GET", "/a", [], [], none⟩).downstreamCalled = true :=
  ⟨((cache_errors_propagate ⟨true, false, true, ⟨200, ["x"]⟩⟩ emptyStore emptyRedis
      ⟨"GET", "/a", [], [], none⟩ rfl rfl).1 rfl).1,
   ((cache_errors_propagate ⟨true, true, true, ⟨200, ["x"]⟩⟩ emptyStore
      (redisSet emptyRedis (make_cache_key ⟨"GET", "/a", [], [], none⟩) "not json" (some 60))
      ⟨"GET", "/a", [], [], none⟩ rfl rfl).2.1 ⟨"not json", some 60⟩ rfl
      (redisSet_self _ _ _ _) (by decide) rfl).1,
   ((cache_errors_propagate ⟨true, true, false, ⟨200, ["x"]⟩⟩ emptyStore emptyRedis
      ⟨"GET", "/a", [], [], none⟩ rfl rfl).2.2 rfl rfl (Or.inl rfl) rfl rfl).1,
   ((cache_errors_propagate ⟨true, true, false, ⟨200, ["x"]⟩⟩ emptyStore emptyRedis
      ⟨"GET", "/a", [], [], none⟩ rfl rfl).2.2 rfl rfl (Or.inl rfl) rfl rfl).2.1⟩

/-- C5: storing a fresh 200 response alters what the first caller
receives: on the store path the middleware drains `response.body_iterator`
to build the cache entry and then returns the same response object, whose
iterator is exhausted, so the caller gets status 200 with an empty body
although the downstream handler produced a non-empty one. -/
theorem response_body_drained_on_store :
    (redis_cache_middleware ⟨true, true, true, ⟨200, ["\x7b\"status\": \"ok\"\x7d"]⟩⟩
        emptyStore emptyRedis ⟨"GET", "/health", [], [], none⟩).response
      = .ok (.stream ⟨200, []⟩)
    ∧ (⟨200, ["\x7b\"status\": \"ok\"\x7d"]⟩ : StreamResp).chunks ≠ [] := by
  constructor
  · simp [redis_cache_middleware, cacheMissPath, emptyStore, emptyRedis]
  · decide

/-- C6 counterexample: a connection drop terminates the subscriber loop
with the error and the rest of the arrival stream is never drained — the
valid `add` message following the drop is not applied, although the same
message is applied when the loop is alive. -/
theorem subscriber_dies_on_error_counterexample :
    runSubscriber emptyStore
        [SubMsg.connDrop, SubMsg.msg "\x7b\"action\": \"add\", \"key\": \"k1\", \"value\": 1\x7d"]
      = (emptyStore, some .connectionError)
    ∧ (runSubscriber emptyStore
        [SubMsg.msg "\x7b\"action\": \"add\", \"key\": \"k1\", \"value\": 1\x7d"]).1 (.str "k1")
      = some (.num 1) := by
  exact ⟨rfl, rfl⟩

/-- C6 amended: the subscriber drains events only until the first
connection drop or message-processing error; such an error terminates the
task with the remaining events undrained, and there is no
reconnect-and-resubscribe — while error-free steps do keep the loop
draining. -/
theorem subscriber_terminates_on_error (store : Store) (msgs : List SubMsg) :
    runSubscriber store (SubMsg.connDrop :: msgs) = (store, some .connectionError)
    ∧ (∀ payload, Json.loads payload = none →
      runSubscriber store (SubMsg.msg payload :: msgs) = (store, some .jsonDecodeError))
    ∧ (∀ m s2, subscriberStep store m = .ok s2 →
      runSubscriber store (m :: msgs) = runSubscriber s2 msgs) := by
  refine ⟨rfl, ?_, ?_⟩
  · intro payload hbad
    simp [runSubscriber, subscriberStep, hbad]
  · intro m s2 hok
    simp [runSubscriber, hok]

theorem subscriber_terminates_on_error_witness :
    runSubscriber emptyStore [SubMsg.connDrop] = (emptyStore, some .connectionError)
    ∧ runSubscriber emptyStore [SubMsg.msg "not json"] = (emptyStore, some .jsonDecodeError) :=
  ⟨(subscriber_terminates_on_error emptyStore []).1,
   (subscriber_terminates_on_error emptyStore []).2.1 "not json" rfl⟩
